import Mathlib

/-!
Shallow embedding of `src/bin/read-sequences.py` (a FASTA-reading pipeline:
date extraction from labels, record-table assembly, grouped count summaries,
and multi-format serialization), together with theorems settling the spec
claims about it.

Conventions of the embedding:
* Python strings are Lean `String`s (labels are treated as ASCII text, so the
  regex class `\d` is embedded as `Char.isDigit`).
* `re.search(r'(\d{4}-\d{2}-\d{2})', label)` is embedded as a leftmost scan
  (`searchDate`) for a fixed ten-character window; the regex is fixed-width,
  so the leftmost match of the Python engine is exactly the first position at
  which the window predicate (`matchHere`) holds.
* Python `str.split('-')` is embedded as `splitDash` on the character list.
* The pandas calls are embedded by functions computing the same values:
  `DataFrame(list_of_dicts)` column inference (`dfColumns`), sorted
  `groupby(...).size()` (`summaryTable`), and the `to_csv` / `to_json`
  renderers (`csvRender`, `jsonLinesRender`).
* Fallible library behaviour is an `Except`: `groupby` over a column that is
  absent from the frame raises `KeyError`, which `output_summaries` models as
  `Except.error`.
-/

namespace ReadSeq

/-- Window predicate for the fixed-width regex `\d{4}-\d{2}-\d{2}`: true iff
the list starts with four digits, a dash, two digits, a dash, two digits. -/
def matchHere : List Char → Bool
  | a :: b :: c :: d :: e :: f :: g :: h :: i :: j :: _ =>
    a.isDigit && b.isDigit && c.isDigit && d.isDigit && (e == '-') &&
    f.isDigit && g.isDigit && (h == '-') && i.isDigit && j.isDigit
  | _ => false

/-- Leftmost search for the date window, embedding `re.search` for the
fixed-width pattern: try each start position from the left, returning the
ten-character match at the first position where `matchHere` holds. -/
def searchDate : List Char → Option (List Char)
  | [] => none
  | c :: cs => if matchHere (c :: cs) then some ((c :: cs).take 10) else searchDate cs

/-- Embeds `parse_date_from_label`: return the first `\d{4}-\d{2}-\d{2}`
match in the label, or the sentinel string `"N/A"` when there is none. -/
def parse_date_from_label (label : String) : String :=
  match searchDate label.data with
  | some m => String.mk m
  | none => "N/A"

/-- Embeds Python `str.split('-')`: split on every dash, keeping empty
pieces, so the result is always nonempty. -/
def splitDash : List Char → List (List Char)
  | [] => [[]]
  | c :: cs =>
    match splitDash cs with
    | [] => [[]]
    | p :: ps => if c == '-' then [] :: p :: ps else (c :: p) :: ps

/-- One row of the record table, with the exact field (column) set built by
`parse_sequences` for each FASTA record. -/
structure SeqRecord where
  sequenceLabel : String
  sequenceCharacters : String
  sequenceDateISO : String
  sequenceDateYear : String
  sequenceDateMonth : String
  sequenceDateDay : String
  sequenceLengthMin : Nat
  sequenceLengthMax : Nat
  sequenceSourcePath : String
  sequenceSourceOffset : Nat
deriving DecidableEq

/-- One input source: its `file.name` and the ordered `(record.id, str(record.seq))`
pairs that `SeqIO.parse` yields from it. -/
structure Source where
  name : String
  records : List (String × String)
deriving DecidableEq

/-- Embeds the dictionary literal built for one record inside the
`parse_sequences` loop. The date component fields mirror
`date.split('-')[k] if date != 'N/A' else 'N/A'`; the `getD` default is
unreachable because a matched date window always has exactly two dashes
(Python would otherwise raise `IndexError`). -/
def mkRecord (fileName : String) (record_idx : Nat) (recordId : String)
    (seqChars : String) : SeqRecord :=
  let date := parse_date_from_label recordId
  { sequenceLabel := recordId
    sequenceCharacters := seqChars
    sequenceDateISO := date
    sequenceDateYear :=
      if date != "N/A" then String.mk ((splitDash date.data).getD 0 []) else "N/A"
    sequenceDateMonth :=
      if date != "N/A" then String.mk ((splitDash date.data).getD 1 []) else "N/A"
    sequenceDateDay :=
      if date != "N/A" then String.mk ((splitDash date.data).getD 2 []) else "N/A"
    sequenceLengthMin := seqChars.length
    sequenceLengthMax := seqChars.length
    sequenceSourcePath := if fileName != "<stdin>" then fileName else "standard input"
    sequenceSourceOffset := record_idx }

/-- Embeds the inner loop of `parse_sequences` over one source's records:
build a row per record and append the label to the unknown-labels list
whenever the extracted date is the sentinel. -/
def parseRecords (fileName : String) : Nat → List (String × String) →
    List SeqRecord × List String
  | _, [] => ([], [])
  | idx, (rid, s) :: rest =>
    let tail := parseRecords fileName (idx + 1) rest
    let date := parse_date_from_label rid
    (mkRecord fileName idx rid s :: tail.1,
     if date == "N/A" then rid :: tail.2 else tail.2)

/-- Embeds `parse_sequences`: process the sources in order, concatenating
their rows and their unknown-label contributions. -/
def parse_sequences : List Source → List SeqRecord × List String
  | [] => ([], [])
  | f :: rest =>
    let here := parseRecords f.name 0 f.records
    let tail := parse_sequences rest
    (here.1 ++ tail.1, here.2 ++ tail.2)

/-- The three summary granularities of `output_summaries`
(`summary_functions` keys `yearly`, `monthly`, `daily`). -/
inductive Granularity
  | yearly
  | monthly
  | daily
deriving DecidableEq

/-- The grouping-column lists of `summary_functions`. -/
def groupColumns : Granularity → List String
  | .yearly => ["sequenceDateYear"]
  | .monthly => ["sequenceDateYear", "sequenceDateMonth"]
  | .daily => ["sequenceDateYear", "sequenceDateMonth", "sequenceDateDay"]

/-- The grouping-key tuple of one record at one granularity: the values of
that granularity's grouping columns. -/
def groupKey : Granularity → SeqRecord → List String
  | .yearly, r => [r.sequenceDateYear]
  | .monthly, r => [r.sequenceDateYear, r.sequenceDateMonth]
  | .daily, r => [r.sequenceDateYear, r.sequenceDateMonth, r.sequenceDateDay]

/-- Lexicographic comparison of key tuples, the ascending order pandas
`groupby(..., sort=True)` (the default) uses for the group keys. -/
def lexLe : List String → List String → Bool
  | [], _ => true
  | _ :: _, [] => false
  | a :: as, b :: bs => if a < b then true else if b < a then false else lexLe as bs

/-- Embeds `df.groupby(group_columns).size().reset_index(name='NumSequences')`
on a frame whose rows are `recs`: one `(key, count)` pair per distinct key
tuple, keys in ascending order. All grouped values here are strings (the
sentinel included), so pandas' dropping of null keys never applies. -/
def summaryTable (g : Granularity) (recs : List SeqRecord) : List (List String × Nat) :=
  let keys := recs.map (groupKey g)
  (keys.dedup.mergeSort lexLe).map (fun k => (k, keys.count k))

/-- Column list of `pd.DataFrame(sequences)` when the record list is
nonempty: the dictionary keys, in insertion order. -/
def recordColumns : List String :=
  ["sequenceLabel", "sequenceCharacters", "sequenceDateISO", "sequenceDateYear",
   "sequenceDateMonth", "sequenceDateDay", "sequenceLengthMin", "sequenceLengthMax",
   "sequenceSourcePath", "sequenceSourceOffset"]

/-- Columns of `pd.DataFrame(sequences)`: for an empty list of row
dictionaries the frame has no columns at all. -/
def dfColumns (recs : List SeqRecord) : List String :=
  if recs.isEmpty then [] else recordColumns

/-- One table cell: pandas serializes the string-valued columns as strings
and the integer columns (lengths, offset, counts) as numbers. -/
inductive Cell
  | str : String → Cell
  | num : Nat → Cell
deriving DecidableEq

/-- The cells of one record row, in column order. -/
def recordCells (r : SeqRecord) : List Cell :=
  [.str r.sequenceLabel, .str r.sequenceCharacters, .str r.sequenceDateISO,
   .str r.sequenceDateYear, .str r.sequenceDateMonth, .str r.sequenceDateDay,
   .num r.sequenceLengthMin, .num r.sequenceLengthMax,
   .str r.sequenceSourcePath, .num r.sequenceSourceOffset]

/-- Rows of the primary output table, in record order. -/
def primaryRows (recs : List SeqRecord) : List (List Cell) :=
  recs.map recordCells

/-- Csv minimal quoting (pandas `to_csv` default): a field is quoted iff it
contains the delimiter, a double quote, or a line break. -/
def csvNeedsQuote (sep : Char) (s : String) : Bool :=
  s.data.any fun c => c == sep || c == '"' || c == '\n' || c == '\r'

/-- Quote a csv field, doubling embedded double quotes. -/
def csvQuote (s : String) : String :=
  "\"" ++ String.mk (s.data.foldr
    (fun c acc => if c == '"' then '"' :: '"' :: acc else c :: acc) []) ++ "\""

/-- Render one csv field under minimal quoting. -/
def csvField (sep : Char) (s : String) : String :=
  if csvNeedsQuote sep s then csvQuote s else s

/-- Plain text of a cell (csv value). -/
def cellText : Cell → String
  | .str s => s
  | .num n => toString n

/-- One csv line: delimiter-joined fields plus the line terminator. -/
def csvLine (sep : Char) (fields : List String) : String :=
  String.intercalate (String.mk [sep]) (fields.map (csvField sep)) ++ "\n"

/-- Embeds `df.to_csv(..., index=False, sep=sep)`: a header line of column
names followed by one line per row, each newline-terminated. -/
def csvRender (sep : Char) (header : List String) (rows : List (List Cell)) : String :=
  csvLine sep header ++ String.join (rows.map fun row => csvLine sep (row.map cellText))

/-- Hexadecimal digit for json control-character escapes. -/
def hexDigit (n : Nat) : Char :=
  if n < 10 then Char.ofNat (48 + n) else Char.ofNat (87 + n)

/-- Json escape of one character (pandas `to_json` escaping, which also
escapes the forward slash). -/
def jsonEscapeChar (c : Char) : String :=
  if c == '"' then "\\\""
  else if c == '\\' then "\\\\"
  else if c == '/' then "\\/"
  else if c == '\n' then "\\n"
  else if c == '\r' then "\\r"
  else if c == '\t' then "\\t"
  else if c.toNat < 32 then
    "\\u00" ++ String.mk [hexDigit (c.toNat / 16), hexDigit (c.toNat % 16)]
  else String.mk [c]

/-- Json string literal for a value. -/
def jsonString (s : String) : String :=
  "\"" ++ String.join (s.data.map jsonEscapeChar) ++ "\""

/-- Json rendering of a cell: strings quoted and escaped, numbers plain. -/
def cellJSON : Cell → String
  | .str s => jsonString s
  | .num n => toString n

/-- One json object row: column names paired with cell values. -/
def jsonRow (header : List String) (row : List Cell) : String :=
  "\x7b" ++ String.intercalate ","
    ((header.zip row).map fun p => jsonString p.1 ++ ":" ++ cellJSON p.2) ++ "\x7d"

/-- Embeds `df.to_json(..., orient='records', lines=True)`: one json object
per row, newline-delimited. -/
def jsonLinesRender (header : List String) (rows : List (List Cell)) : String :=
  String.intercalate "\n" (rows.map (jsonRow header))

/-- Embeds the `if/elif` format dispatch shared by `main` and
`output_summaries`: exactly one renderer per supported selector, and no
output at all for any other selector (the chain has no `else` branch). -/
def renderTable (fmt : String) (header : List String) (rows : List (List Cell)) :
    Option String :=
  if fmt == "json" then some (jsonLinesRender header rows)
  else if fmt == "csv" then some (csvRender ',' header rows)
  else if fmt == "tsv" then some (csvRender '\t' header rows)
  else none

/-- The `choices` list of the `--output-format` and `--summarize-format`
command-line options. -/
def FORMAT_CHOICES : List String := ["json", "csv", "tsv"]

/-- Embeds argparse validation of a `choices=['json','csv','tsv']` option: a
value outside the choices is a configuration error reported before the
program body runs. -/
def parseFormatChoice (s : String) : Except String String :=
  if s ∈ FORMAT_CHOICES then Except.ok s
  else Except.error ("argparse: invalid choice: " ++ s)

/-- Embeds `args.summarize_format if args.summarize_format else
args.output_format` in `main`. -/
def resolveSummaryFormat (sumFmt : Option String) (outFmt : String) : String :=
  match sumFmt with
  | some f => f
  | none => outFmt

/-- Header of one summary table: grouping columns then the count column. -/
def summaryHeader (g : Granularity) : List String :=
  groupColumns g ++ ["NumSequences"]

/-- Cell rows of one summary table. -/
def summaryRows (g : Granularity) (recs : List SeqRecord) : List (List Cell) :=
  (summaryTable g recs).map fun p => p.1.map Cell.str ++ [Cell.num p.2]

/-- The `summary_functions` dictionary: names and granularities in
iteration order. -/
def summaryNames : List (String × Granularity) :=
  [("yearly", .yearly), ("monthly", .monthly), ("daily", .daily)]

/-- First grouping column absent from the frame, if any: `df.groupby(cols)`
raises `KeyError` on it. -/
def missingColumn (recs : List SeqRecord) (cols : List String) : Option String :=
  cols.find? fun c => !((dfColumns recs).contains c)

/-- Loop body of `output_summaries` over the remaining summaries: each
iteration either raises `KeyError` (a grouping column is missing from the
frame, as happens for an empty frame), writes the file
`<summarize_prefix>.<name>` in the selected format, or (for a selector
outside the dispatch chain) writes nothing and continues. -/
def outputSummariesAux (recs : List SeqRecord) (sumPfx fmt : String) :
    List (String × Granularity) → Except String (List (String × String))
  | [] => Except.ok []
  | (name, g) :: rest =>
    match missingColumn recs (groupColumns g) with
    | some c => Except.error ("KeyError: " ++ c)
    | none =>
      match renderTable fmt (summaryHeader g) (summaryRows g recs) with
      | some content =>
        match outputSummariesAux recs sumPfx fmt rest with
        | Except.ok files => Except.ok ((sumPfx ++ "." ++ name, content) :: files)
        | Except.error e => Except.error e
      | none => outputSummariesAux recs sumPfx fmt rest

/-- Embeds `output_summaries`: produce the three summary files (name and
serialized content) for the given record table, or the exception the first
failing `groupby` raises. -/
def output_summaries (recs : List SeqRecord) (sumPfx fmt : String) :
    Except String (List (String × String)) :=
  outputSummariesAux recs sumPfx fmt summaryNames

/-- Everything one invocation of `main` emits after parsing: the primary
serialized table, the summary files (when a summarize prefix is given), and
the diagnostic counts and labels reported on standard error. -/
structure RunOutput where
  primary : Option String
  summaries : Option (Except String (List (String × String)))
  totalRead : Nat
  totalParsed : Nat
  totalUnknown : Nat
  unknownLabels : List String

/-- Embeds the body of `main` after argument parsing: parse the sources,
serialize the record table, optionally emit summaries in the resolved
summary format, and report the three diagnostic totals
(`len(sequences)`, `len(df) - len(unknown_labels)`, `len(unknown_labels)`). -/
def runPipeline (sources : List Source) (outFmt : String) (sumPfx : Option String)
    (sumFmt : Option String) : RunOutput :=
  let parsed := parse_sequences sources
  let recs := parsed.1
  let unknown := parsed.2
  { primary := renderTable outFmt (dfColumns recs) (primaryRows recs)
    summaries :=
      match sumPfx with
      | some p => some (output_summaries recs p (resolveSummaryFormat sumFmt outFmt))
      | none => none
    totalRead := recs.length
    totalParsed := recs.length - unknown.length
    totalUnknown := unknown.length
    unknownLabels := unknown }

/-- An input handle of the run: its name and whether it is the standard
input stream (`sys.stdin` is skipped by the cleanup loop's `is not` test). -/
structure FileHandle where
  name : String
  isStdin : Bool
deriving DecidableEq

/-- Embeds the cleanup loop at the end of `main`:
`for file in input_files: if file is not sys.stdin: file.close`.
The body's `file.close` has no call parentheses: it is an expression
statement that evaluates the bound-method attribute and discards it, so it
does not invoke `close` and the set of open handles is unchanged. No scoped
acquisition (`with`/`try-finally`) wraps the handles either. -/
def closeInputFiles (files : List FileHandle) (openHandles : List FileHandle) :
    List FileHandle :=
  files.foldl
    (fun acc f =>
      if f.isStdin then acc
      else
        let _boundMethod := f
        acc)
    openHandles

/-! Helper lemmas about the date search. -/

lemma searchDate_eq_none_iff (l : List Char) :
    searchDate l = none ↔ ∀ i, matchHere (l.drop i) = false := by
  induction l with
  | nil =>
    constructor
    · intro _ i
      cases i <;> rfl
    · intro _
      rfl
  | cons c cs ih =>
    cases hm : matchHere (c :: cs) with
    | false =>
      constructor
      · intro h i
        cases i with
        | zero => simpa using hm
        | succ n =>
          have h' : searchDate cs = none := by simpa [searchDate, hm] using h
          simpa using (ih.mp h') n
      · intro h
        have h' : ∀ i, matchHere (cs.drop i) = false := fun i => by
          simpa using h (i + 1)
        simp [searchDate, hm, ih.mpr h']
    | true =>
      constructor
      · intro h
        simp [searchDate, hm] at h
      · intro h
        have h0 := h 0
        rw [List.drop_zero] at h0
        rw [hm] at h0
        cases h0

lemma searchDate_eq_some (l : List Char) :
    ∀ w, searchDate l = some w →
      ∃ i, matchHere (l.drop i) = true ∧ (∀ j, j < i → matchHere (l.drop j) = false) ∧
        w = (l.drop i).take 10 := by
  induction l with
  | nil =>
    intro w h
    simp [searchDate] at h
  | cons c cs ih =>
    intro w h
    cases hm : matchHere (c :: cs) with
    | true =>
      refine ⟨0, by simpa using hm, ?_, ?_⟩
      · intro j hj
        omega
      · have h2 := h
        simp [searchDate, hm] at h2
        simpa using h2.symm
    | false =>
      have h' : searchDate cs = some w := by simpa [searchDate, hm] using h
      obtain ⟨i, h1, h2, h3⟩ := ih w h'
      refine ⟨i + 1, by simpa using h1, ?_, by simpa using h3⟩
      intro j hj
      cases j with
      | zero => simpa using hm
      | succ k => simpa using h2 k (by omega)

lemma isDigit_ne_dash (c : Char) (h : c.isDigit = true) : (c == '-') = false := by
  cases hx : (c == '-') with
  | false => rfl
  | true =>
    exfalso
    have hc : c = '-' := beq_iff_eq.mp hx
    subst hc
    exact absurd h (by decide)

lemma splitDash_window (a b c d f g i j : Char)
    (ha : (a == '-') = false) (hb : (b == '-') = false) (hc : (c == '-') = false)
    (hd : (d == '-') = false) (hf : (f == '-') = false) (hg : (g == '-') = false)
    (hi : (i == '-') = false) (hj : (j == '-') = false) :
    splitDash [a, b, c, d, '-', f, g, '-', i, j] = [[a, b, c, d], [f, g], [i, j]] := by
  simp [splitDash, ha, hb, hc, hd, hf, hg, hi, hj]

lemma take10_split : ∀ (cs : List Char), matchHere cs = true →
    ∃ y m d : List Char,
      splitDash (cs.take 10) = [y, m, d] ∧
      cs.take 10 = y ++ ('-' :: m) ++ ('-' :: d) ∧
      (cs.take 10).length = 10
  | a :: b :: c :: d :: e :: f :: g :: h2 :: i :: j :: rest, h => by
    simp only [matchHere, Bool.and_eq_true, beq_iff_eq] at h
    obtain ⟨⟨⟨⟨⟨⟨⟨⟨⟨ha, hb⟩, hc⟩, hd⟩, he⟩, hf⟩, hg⟩, hh⟩, hi⟩, hj⟩ := h
    subst he
    subst hh
    refine ⟨[a, b, c, d], [f, g], [i, j], ?_, rfl, rfl⟩
    have t : (a :: b :: c :: d :: '-' :: f :: g :: '-' :: i :: j :: rest).take 10
        = [a, b, c, d, '-', f, g, '-', i, j] := rfl
    rw [t]
    exact splitDash_window a b c d f g i j (isDigit_ne_dash a ha) (isDigit_ne_dash b hb)
      (isDigit_ne_dash c hc) (isDigit_ne_dash d hd) (isDigit_ne_dash f hf)
      (isDigit_ne_dash g hg) (isDigit_ne_dash i hi) (isDigit_ne_dash j hj)
  | [], h => by simp [matchHere] at h
  | [_], h => by simp [matchHere] at h
  | [_, _], h => by simp [matchHere] at h
  | [_, _, _], h => by simp [matchHere] at h
  | [_, _, _, _], h => by simp [matchHere] at h
  | [_, _, _, _, _], h => by simp [matchHere] at h
  | [_, _, _, _, _, _], h => by simp [matchHere] at h
  | [_, _, _, _, _, _, _], h => by simp [matchHere] at h
  | [_, _, _, _, _, _, _, _], h => by simp [matchHere] at h
  | [_, _, _, _, _, _, _, _, _], h => by simp [matchHere] at h

lemma parse_date_eq_of_some (label : String) (w : List Char)
    (h : searchDate label.data = some w) : parse_date_from_label label = String.mk w := by
  simp [parse_date_from_label, h]

lemma parse_date_eq_of_none (label : String) (h : searchDate label.data = none) :
    parse_date_from_label label = "N/A" := by
  simp [parse_date_from_label, h]

/-! Helper lemmas about record construction and `parse_sequences`. -/

lemma mkRecord_of_match (fn : String) (idx : Nat) (rid s : String)
    (hm : ∃ i, matchHere (rid.data.drop i) = true) :
    (∃ i, matchHere (rid.data.drop i) = true ∧
        (∀ j, j < i → matchHere (rid.data.drop j) = false) ∧
        (mkRecord fn idx rid s).sequenceDateISO.data = (rid.data.drop i).take 10) ∧
    (mkRecord fn idx rid s).sequenceDateYear ++ "-" ++
        (mkRecord fn idx rid s).sequenceDateMonth ++ "-" ++
        (mkRecord fn idx rid s).sequenceDateDay = (mkRecord fn idx rid s).sequenceDateISO ∧
    splitDash (mkRecord fn idx rid s).sequenceDateISO.data =
      [(mkRecord fn idx rid s).sequenceDateYear.data,
       (mkRecord fn idx rid s).sequenceDateMonth.data,
       (mkRecord fn idx rid s).sequenceDateDay.data] := by
  cases hs : searchDate rid.data with
  | none =>
    exfalso
    obtain ⟨i, hi⟩ := hm
    have hz := (searchDate_eq_none_iff rid.data).mp hs i
    rw [hi] at hz
    cases hz
  | some w =>
    obtain ⟨i, h1, h2, h3⟩ := searchDate_eq_some rid.data w hs
    subst h3
    have hdate := parse_date_eq_of_some rid _ hs
    obtain ⟨y, m, d, hsplit, hjoin, hlen⟩ := take10_split (rid.data.drop i) h1
    have hne : (String.mk ((rid.data.drop i).take 10) != "N/A") = true := by
      apply bne_iff_ne.mpr
      intro hcontra
      have hdata : (rid.data.drop i).take 10 = "N/A".data := congrArg String.data hcontra
      rw [hdata] at hlen
      simp at hlen
    have hiso : (mkRecord fn idx rid s).sequenceDateISO =
        String.mk ((rid.data.drop i).take 10) := by
      simp [mkRecord, hdate]
    have hyear : (mkRecord fn idx rid s).sequenceDateYear = String.mk y := by
      simp [mkRecord, hdate, hne, hsplit]
    have hmonth : (mkRecord fn idx rid s).sequenceDateMonth = String.mk m := by
      simp [mkRecord, hdate, hne, hsplit]
    have hday : (mkRecord fn idx rid s).sequenceDateDay = String.mk d := by
      simp [mkRecord, hdate, hne, hsplit]
    refine ⟨⟨i, h1, h2, by rw [hiso]⟩, ?_, ?_⟩
    · rw [hiso, hyear, hmonth, hday]
      apply String.ext
      have hdash : ("-" : String).data = ['-'] := rfl
      simp only [String.data_append, hdash]
      rw [hjoin]
      simp
    · rw [hiso, hyear, hmonth, hday]
      simpa using hsplit

lemma mkRecord_of_no_match (fn : String) (idx : Nat) (rid s : String)
    (h : searchDate rid.data = none) :
    (mkRecord fn idx rid s).sequenceDateISO = "N/A" ∧
    (mkRecord fn idx rid s).sequenceDateYear = "N/A" ∧
    (mkRecord fn idx rid s).sequenceDateMonth = "N/A" ∧
    (mkRecord fn idx rid s).sequenceDateDay = "N/A" := by
  have hdate := parse_date_eq_of_none rid h
  refine ⟨?_, ?_, ?_, ?_⟩ <;> simp [mkRecord, hdate]

lemma mem_parseRecords (fn : String) :
    ∀ (i : Nat) (rs : List (String × String)) (r : SeqRecord),
      r ∈ (parseRecords fn i rs).1 → ∃ idx rid s, r = mkRecord fn idx rid s := by
  intro i rs
  induction rs generalizing i with
  | nil =>
    intro r hr
    simp [parseRecords] at hr
  | cons p rest ih =>
    intro r hr
    obtain ⟨rid, s⟩ := p
    simp [parseRecords] at hr
    rcases hr with hr | hr
    · exact ⟨i, rid, s, hr⟩
    · exact ih (i + 1) r hr

lemma mem_parse_sequences (srcs : List Source) (r : SeqRecord)
    (hr : r ∈ (parse_sequences srcs).1) : ∃ fn idx rid s, r = mkRecord fn idx rid s := by
  induction srcs with
  | nil => simp [parse_sequences] at hr
  | cons f rest ih =>
    simp [parse_sequences] at hr
    rcases hr with hr | hr
    · obtain ⟨idx, rid, s, h⟩ := mem_parseRecords f.name 0 f.records r hr
      exact ⟨f.name, idx, rid, s, h⟩
    · exact ih hr

lemma parseRecords_unknown (fn : String) :
    ∀ (i : Nat) (rs : List (String × String)),
      (parseRecords fn i rs).2 =
        ((parseRecords fn i rs).1.filter
          (fun r => r.sequenceDateISO == "N/A")).map (fun r => r.sequenceLabel) := by
  intro i rs
  induction rs generalizing i with
  | nil => simp [parseRecords]
  | cons p rest ih =>
    obtain ⟨rid, s⟩ := p
    by_cases hd : parse_date_from_label rid = "N/A"
    · simp [parseRecords, hd, ih (i + 1), mkRecord]
    · have hb : (parse_date_from_label rid == "N/A") = false := beq_eq_false_iff_ne.mpr hd
      simp [parseRecords, hb, ih (i + 1), mkRecord]

lemma parse_sequences_unknown (srcs : List Source) :
    (parse_sequences srcs).2 =
      ((parse_sequences srcs).1.filter
        (fun r => r.sequenceDateISO == "N/A")).map (fun r => r.sequenceLabel) := by
  induction srcs with
  | nil => simp [parse_sequences]
  | cons f rest ih =>
    simp [parse_sequences, ih, parseRecords_unknown f.name 0 f.records,
      List.filter_append, List.map_append]

lemma length_filter_sentinel (l : List SeqRecord) :
    (l.filter (fun r => r.sequenceDateISO == "N/A")).length +
      (l.filter (fun r => r.sequenceDateISO != "N/A")).length = l.length := by
  induction l with
  | nil => simp
  | cons a t ih =>
    simp only [bne] at ih ⊢
    cases hp : (a.sequenceDateISO == "N/A") <;>
      simp [List.filter_cons, hp] <;> omega

/-! Helper lemmas about the aggregation and the summary output. -/

lemma summaryTable_counts_sum (g : Granularity) (recs : List SeqRecord) :
    ((summaryTable g recs).map (fun p => p.2)).sum = recs.length := by
  simp only [summaryTable, List.map_map]
  have hcomp : ((fun (p : List String × Nat) => p.2) ∘
      fun k => (k, (recs.map (groupKey g)).count k))
      = fun k => (recs.map (groupKey g)).count k := rfl
  rw [hcomp]
  have hperm := (List.mergeSort_perm (recs.map (groupKey g)).dedup lexLe).map
    (fun k => (recs.map (groupKey g)).count k)
  rw [hperm.sum_eq]
  rw [show (List.instBEq : BEq (List String)) = instBEqOfDecidableEq from
    lawful_beq_subsingleton _ _]
  rw [List.sum_map_count_dedup_eq_length]
  exact List.length_map recs (groupKey g)

lemma summaryTable_mem_key (g : Granularity) (recs : List SeqRecord) (r : SeqRecord)
    (hr : r ∈ recs) : groupKey g r ∈ (summaryTable g recs).map (fun p => p.1) := by
  simp only [summaryTable, List.map_map]
  have hcomp : ((fun (p : List String × Nat) => p.1) ∘
      fun k => (k, (recs.map (groupKey g)).count k)) = id := rfl
  rw [hcomp, List.map_id]
  have h1 : groupKey g r ∈ recs.map (groupKey g) := List.mem_map_of_mem (groupKey g) hr
  have h2 : groupKey g r ∈ (recs.map (groupKey g)).dedup := List.mem_dedup.mpr h1
  exact ((List.mergeSort_perm _ lexLe).mem_iff).mpr h2

lemma missingColumn_none (recs : List SeqRecord) (hne : recs ≠ []) (g : Granularity) :
    missingColumn recs (groupColumns g) = none := by
  have h : recs.isEmpty = false := by
    cases recs with
    | nil => exact absurd rfl hne
    | cons a t => rfl
  have hdf : dfColumns recs = recordColumns := by simp [dfColumns, h]
  cases g <;> simp [missingColumn, hdf, groupColumns, recordColumns]

lemma output_summaries_ok (recs : List SeqRecord) (hne : recs ≠ []) (p fmt : String)
    (hf : fmt ∈ FORMAT_CHOICES) :
    ∃ cy cm cd,
      output_summaries recs p fmt =
        Except.ok [(p ++ "." ++ "yearly", cy), (p ++ "." ++ "monthly", cm),
          (p ++ "." ++ "daily", cd)] ∧
      renderTable fmt (summaryHeader .yearly) (summaryRows .yearly recs) = some cy ∧
      renderTable fmt (summaryHeader .monthly) (summaryRows .monthly recs) = some cm ∧
      renderTable fmt (summaryHeader .daily) (summaryRows .daily recs) = some cd := by
  have hy := missingColumn_none recs hne Granularity.yearly
  have hmo := missingColumn_none recs hne Granularity.monthly
  have hd := missingColumn_none recs hne Granularity.daily
  have hf' : fmt = "json" ∨ fmt = "csv" ∨ fmt = "tsv" := by
    simpa [FORMAT_CHOICES] using hf
  rcases hf' with h | h | h <;> subst h
  · refine ⟨jsonLinesRender (summaryHeader .yearly) (summaryRows .yearly recs),
      jsonLinesRender (summaryHeader .monthly) (summaryRows .monthly recs),
      jsonLinesRender (summaryHeader .daily) (summaryRows .daily recs),
      ?_, by simp [renderTable], by simp [renderTable], by simp [renderTable]⟩
    simp [output_summaries, outputSummariesAux, summaryNames, hy, hmo, hd, renderTable]
  · refine ⟨csvRender ',' (summaryHeader .yearly) (summaryRows .yearly recs),
      csvRender ',' (summaryHeader .monthly) (summaryRows .monthly recs),
      csvRender ',' (summaryHeader .daily) (summaryRows .daily recs),
      ?_, by simp [renderTable], by simp [renderTable], by simp [renderTable]⟩
    simp [output_summaries, outputSummariesAux, summaryNames, hy, hmo, hd, renderTable]
  · refine ⟨csvRender '\t' (summaryHeader .yearly) (summaryRows .yearly recs),
      csvRender '\t' (summaryHeader .monthly) (summaryRows .monthly recs),
      csvRender '\t' (summaryHeader .daily) (summaryRows .daily recs),
      ?_, by simp [renderTable], by simp [renderTable], by simp [renderTable]⟩
    simp [output_summaries, outputSummariesAux, summaryNames, hy, hmo, hd, renderTable]

/-! Claim theorems. -/

/-- C1: for every record produced by `parse_sequences` whose label contains
a substring matching four digits, dash, two digits, dash, two digits, the
`sequenceDateISO` field is the leftmost such substring verbatim, the year,
month and day fields are the three dash-separated pieces of it (Python
`split('-')`, embedded as `splitDash`), and joining them with dashes
reassembles `sequenceDateISO` exactly. Only the digit shape is required, so
no semantic validation of the date values is performed (the witness uses
month 13 and day 45). -/
theorem c1_leftmost_date_and_reassembly (files : List Source) (r : SeqRecord)
    (hr : r ∈ (parse_sequences files).1)
    (hm : ∃ i, matchHere (r.sequenceLabel.data.drop i) = true) :
    (∃ i, matchHere (r.sequenceLabel.data.drop i) = true ∧
        (∀ j, j < i → matchHere (r.sequenceLabel.data.drop j) = false) ∧
        r.sequenceDateISO.data = (r.sequenceLabel.data.drop i).take 10) ∧
    r.sequenceDateYear ++ "-" ++ r.sequenceDateMonth ++ "-" ++ r.sequenceDateDay =
      r.sequenceDateISO ∧
    splitDash r.sequenceDateISO.data =
      [r.sequenceDateYear.data, r.sequenceDateMonth.data, r.sequenceDateDay.data] := by
  obtain ⟨fn, idx, rid, s, hEq⟩ := mem_parse_sequences files r hr
  subst hEq
  have hl : (mkRecord fn idx rid s).sequenceLabel = rid := rfl
  rw [hl] at hm ⊢
  exact mkRecord_of_match fn idx rid s hm

/-- Witness for C1 at a concrete run: the label `seq|9999-13-45` (month 13,
day 45 — accepted without semantic validation) yields
`sequenceDateISO = "9999-13-45"`, and the date pieces reassemble to it. -/
theorem c1_witness :
    (mkRecord "f.fasta" 0 "seq|9999-13-45" "ACGT").sequenceDateYear ++ "-" ++
        (mkRecord "f.fasta" 0 "seq|9999-13-45" "ACGT").sequenceDateMonth ++ "-" ++
        (mkRecord "f.fasta" 0 "seq|9999-13-45" "ACGT").sequenceDateDay =
      (mkRecord "f.fasta" 0 "seq|9999-13-45" "ACGT").sequenceDateISO ∧
    (mkRecord "f.fasta" 0 "seq|9999-13-45" "ACGT").sequenceDateISO = "9999-13-45" := by
  have h := c1_leftmost_date_and_reassembly
    [⟨"f.fasta", [("seq|9999-13-45", "ACGT")]⟩]
    (mkRecord "f.fasta" 0 "seq|9999-13-45" "ACGT")
    (by decide)
    ⟨4, by decide⟩
  exact ⟨h.2.1, by decide⟩

/-- C2 counterexample: the label `no-date-label` has no date-shaped
substring, yet the produced record's `sequenceDateISO` is the string
`"N/A"`, not the claimed sentinel string `"unknown"`. -/
theorem c2_counterexample :
    searchDate ("no-date-label".data) = none ∧
    (parse_sequences [⟨"f.fasta", [("no-date-label", "ACGT")]⟩]).1.map
      (fun r => r.sequenceDateISO) = ["N/A"] ∧
    ¬ ((parse_sequences [⟨"f.fasta", [("no-date-label", "ACGT")]⟩]).1.map
      (fun r => r.sequenceDateISO) = ["unknown"]) := by
  exact ⟨by decide, by decide, by decide⟩

/-- C2 (amended): for every record whose label has no date-shaped substring,
the `sequenceDateISO`, `sequenceDateYear`, `sequenceDateMonth` and
`sequenceDateDay` fields all equal the sentinel value `"N/A"` (the code's
sentinel, not the string `"unknown"`), and the unknown-labels list is
exactly the list of labels of the sentinel records, in encounter order, one
entry per such record, duplicates preserved. -/
theorem c2_sentinel_fields_and_unknown_list (files : List Source) :
    (∀ r ∈ (parse_sequences files).1, searchDate r.sequenceLabel.data = none →
      r.sequenceDateISO = "N/A" ∧ r.sequenceDateYear = "N/A" ∧
      r.sequenceDateMonth = "N/A" ∧ r.sequenceDateDay = "N/A") ∧
    (parse_sequences files).2 =
      ((parse_sequences files).1.filter
        (fun r => r.sequenceDateISO == "N/A")).map (fun r => r.sequenceLabel) := by
  refine ⟨?_, parse_sequences_unknown files⟩
  intro r hr hnone
  obtain ⟨fn, idx, rid, s, hEq⟩ := mem_parse_sequences files r hr
  subst hEq
  have hl : (mkRecord fn idx rid s).sequenceLabel = rid := rfl
  rw [hl] at hnone
  exact mkRecord_of_no_match fn idx rid s hnone

/-- Witness for C2 (amended) at a concrete run with a duplicated dateless
label: the unknown-labels list keeps both occurrences in order, and the
record's year field is `"N/A"`. -/
theorem c2_witness :
    (parse_sequences [⟨"f.fasta", [("no-date-A", "ACGT"), ("x|2020-01-02", "AC"),
        ("no-date-A", "G")]⟩]).2 = ["no-date-A", "no-date-A"] ∧
    (mkRecord "f.fasta" 0 "no-date-A" "ACGT").sequenceDateYear = "N/A" := by
  have h := c2_sentinel_fields_and_unknown_list
    [⟨"f.fasta", [("no-date-A", "ACGT"), ("x|2020-01-02", "AC"), ("no-date-A", "G")]⟩]
  constructor
  · rw [h.2]
    decide
  · exact (h.1 (mkRecord "f.fasta" 0 "no-date-A" "ACGT") (by decide) (by decide)).2.1

/-- C9: the date search is not anchored to token boundaries: in the label
`A12345-67-89` the date shape occurs only inside a longer digit run, and
extraction returns the ten-character match `2345-67-89` cut from inside the
run instead of the unknown sentinel. -/
theorem c9_unanchored_digit_run :
    parse_date_from_label "A12345-67-89" = "2345-67-89" ∧
    parse_date_from_label "A12345-67-89" ≠ "N/A" := by
  exact ⟨by decide, by decide⟩

/-- C3: each of the three aggregations partitions the record table: the
bucket counts of one granularity sum to the total number of records, and
every record's grouping key — the sentinel-valued keys included — occurs as
a bucket key, so no record is filtered out. -/
theorem c3_aggregation_partitions (g : Granularity) (recs : List SeqRecord) :
    ((summaryTable g recs).map (fun p => p.2)).sum = recs.length ∧
    ∀ r ∈ recs, groupKey g r ∈ (summaryTable g recs).map (fun p => p.1) := by
  exact ⟨summaryTable_counts_sum g recs, fun r hr => summaryTable_mem_key g recs r hr⟩

/-- Witness for C3 at a concrete run with one dated and one dateless record:
the yearly counts sum to 2 and the sentinel bucket `["N/A"]` is present. -/
theorem c3_witness :
    ((summaryTable .yearly
        (parse_sequences [⟨"f.fa", [("a|2020-01-02", "AC"), ("b", "T")]⟩]).1).map
      (fun p => p.2)).sum = 2 ∧
    ["N/A"] ∈ (summaryTable .yearly
        (parse_sequences [⟨"f.fa", [("a|2020-01-02", "AC"), ("b", "T")]⟩]).1).map
      (fun p => p.1) := by
  have h := c3_aggregation_partitions .yearly
    (parse_sequences [⟨"f.fa", [("a|2020-01-02", "AC"), ("b", "T")]⟩]).1
  constructor
  · rw [h.1]
    decide
  · have hmem := h.2 (mkRecord "f.fa" 1 "b" "T") (by decide)
    have hkey : groupKey .yearly (mkRecord "f.fa" 1 "b" "T") = ["N/A"] := by decide
    rw [hkey] at hmem
    exact hmem

/-- C4 (code bug evaluation): on an empty input the record table has zero
rows, but emitting summaries fails rather than producing header-only files:
the frame built from an empty record list has no columns, so the first
`groupby` raises `KeyError` on `sequenceDateYear` and no summary file is
written. -/
theorem c4_empty_input_summaries_keyerror (sumPfx fmt : String) :
    primaryRows ([] : List SeqRecord) = [] ∧
    output_summaries [] sumPfx fmt = Except.error ("KeyError: " ++ "sequenceDateYear") := by
  exact ⟨rfl, rfl⟩

/-- C5: a format selector outside json, csv, tsv is rejected by argparse as
a configuration error and the dispatch chain writes nothing for it; a
selector inside the set passes validation and produces exactly one of the
three renderings, the one matching the selector. -/
theorem c5_format_selector (fmt : String) (header : List String)
    (rows : List (List Cell)) :
    (fmt ∉ FORMAT_CHOICES →
      parseFormatChoice fmt = Except.error ("argparse: invalid choice: " ++ fmt) ∧
      renderTable fmt header rows = none) ∧
    (fmt ∈ FORMAT_CHOICES →
      parseFormatChoice fmt = Except.ok fmt ∧
      ((fmt = "json" ∧ renderTable fmt header rows = some (jsonLinesRender header rows)
          ∧ fmt ≠ "csv" ∧ fmt ≠ "tsv") ∨
       (fmt = "csv" ∧ renderTable fmt header rows = some (csvRender ',' header rows)
          ∧ fmt ≠ "json" ∧ fmt ≠ "tsv") ∨
       (fmt = "tsv" ∧ renderTable fmt header rows = some (csvRender '\t' header rows)
          ∧ fmt ≠ "json" ∧ fmt ≠ "csv"))) := by
  constructor
  · intro hout
    have h1 : fmt ≠ "json" := fun h => hout (by simp [FORMAT_CHOICES, h])
    have h2 : fmt ≠ "csv" := fun h => hout (by simp [FORMAT_CHOICES, h])
    have h3 : fmt ≠ "tsv" := fun h => hout (by simp [FORMAT_CHOICES, h])
    refine ⟨by simp [parseFormatChoice, hout], ?_⟩
    simp [renderTable, beq_eq_false_iff_ne.mpr h1, beq_eq_false_iff_ne.mpr h2,
      beq_eq_false_iff_ne.mpr h3]
  · intro hin
    refine ⟨by simp [parseFormatChoice, hin], ?_⟩
    have hf : fmt = "json" ∨ fmt = "csv" ∨ fmt = "tsv" := by
      simpa [FORMAT_CHOICES] using hin
    rcases hf with h | h | h <;> subst h
    · exact Or.inl ⟨rfl, by simp [renderTable], by decide, by decide⟩
    · exact Or.inr (Or.inl ⟨rfl, by simp [renderTable], by decide, by decide⟩)
    · exact Or.inr (Or.inr ⟨rfl, by simp [renderTable], by decide, by decide⟩)

/-- Witness for C5: the selector `xml` is rejected and renders nothing; the
selector `tsv` passes validation and yields the tab-separated rendering. -/
theorem c5_witness :
    (parseFormatChoice "xml" = Except.error ("argparse: invalid choice: " ++ "xml") ∧
      renderTable "xml" recordColumns [] = none) ∧
    parseFormatChoice "tsv" = Except.ok "tsv" ∧
    renderTable "tsv" recordColumns [] = some (csvRender '\t' recordColumns []) := by
  have hout := (c5_format_selector "xml" recordColumns []).1 (by decide)
  have hin := (c5_format_selector "tsv" recordColumns []).2 (by decide)
  refine ⟨hout, hin.1, ?_⟩
  rcases hin.2 with h | h | h
  · exact absurd h.1 (by decide)
  · exact absurd h.1 (by decide)
  · exact h.2.1

/-- C6: when a summarize prefix is given and `--summarize-format` is
omitted, the summary format resolves to the `--output-format` value, and
(on a nonempty record table, where `groupby` succeeds) all three summary
files are serialized by that format's renderer. -/
theorem c6_summary_format_defaults (srcs : List Source) (outFmt p : String)
    (hf : outFmt ∈ FORMAT_CHOICES) (hne : (parse_sequences srcs).1 ≠ []) :
    resolveSummaryFormat none outFmt = outFmt ∧
    (runPipeline srcs outFmt (some p) none).summaries =
      some (output_summaries (parse_sequences srcs).1 p outFmt) ∧
    ∃ cy cm cd,
      output_summaries (parse_sequences srcs).1 p outFmt =
        Except.ok [(p ++ "." ++ "yearly", cy), (p ++ "." ++ "monthly", cm),
          (p ++ "." ++ "daily", cd)] ∧
      renderTable outFmt (summaryHeader .yearly)
        (summaryRows .yearly (parse_sequences srcs).1) = some cy ∧
      renderTable outFmt (summaryHeader .monthly)
        (summaryRows .monthly (parse_sequences srcs).1) = some cm ∧
      renderTable outFmt (summaryHeader .daily)
        (summaryRows .daily (parse_sequences srcs).1) = some cd := by
  exact ⟨rfl, rfl, output_summaries_ok (parse_sequences srcs).1 hne p outFmt hf⟩

/-- Witness for C6 at a concrete run: with `--output-format=tsv` and no
`--summarize-format`, the format resolves to `tsv` and all three summary
files are produced by the tab-separated renderer. -/
theorem c6_witness :
    resolveSummaryFormat none "tsv" = "tsv" ∧
    ∃ cy cm cd,
      output_summaries (parse_sequences [⟨"f.fa", [("a|2020-01-02", "AC")]⟩]).1
          "sum" "tsv" =
        Except.ok [("sum" ++ "." ++ "yearly", cy), ("sum" ++ "." ++ "monthly", cm),
          ("sum" ++ "." ++ "daily", cd)] ∧
      renderTable "tsv" (summaryHeader .yearly)
        (summaryRows .yearly (parse_sequences [⟨"f.fa", [("a|2020-01-02", "AC")]⟩]).1) =
        some cy ∧
      renderTable "tsv" (summaryHeader .monthly)
        (summaryRows .monthly (parse_sequences [⟨"f.fa", [("a|2020-01-02", "AC")]⟩]).1) =
        some cm ∧
      renderTable "tsv" (summaryHeader .daily)
        (summaryRows .daily (parse_sequences [⟨"f.fa", [("a|2020-01-02", "AC")]⟩]).1) =
        some cd := by
  have h := c6_summary_format_defaults [⟨"f.fa", [("a|2020-01-02", "AC")]⟩]
    "tsv" "sum" (by decide) (by decide)
  exact ⟨h.1, h.2.2⟩

/-- C7: the pipeline is deterministic: two runs on equal inputs and equal
options produce identical primary output, identical summary files, and
identical diagnostics; field order and row order are fixed by
construction, with no source of nondeterminism in the embedded code. -/
theorem c7_pipeline_deterministic (srcs1 srcs2 : List Source) (f1 f2 : String)
    (p1 p2 sf1 sf2 : Option String)
    (h : srcs1 = srcs2 ∧ f1 = f2 ∧ p1 = p2 ∧ sf1 = sf2) :
    runPipeline srcs1 f1 p1 sf1 = runPipeline srcs2 f2 p2 sf2 := by
  obtain ⟨h1, h2, h3, h4⟩ := h
  rw [h1, h2, h3, h4]

/-- Witness for C7: two identically configured runs over the same concrete
source produce the same output. -/
theorem c7_witness :
    runPipeline [⟨"f.fa", [("a|2020-01-02", "AC")]⟩] "csv" (some "sum") none =
      runPipeline [⟨"f.fa", [("a|2020-01-02", "AC")]⟩] "csv" (some "sum") none := by
  exact c7_pipeline_deterministic _ _ _ _ _ _ _ _ ⟨rfl, rfl, rfl, rfl⟩

/-- C8 (code bug evaluation): the cleanup loop at the end of `main`
(`for file in input_files: if file is not sys.stdin: file.close`) evaluates
the attribute `file.close` without calling it, so it releases nothing:
after the loop, every handle that was open is still open, for every list of
input files — there is no scoped acquisition releasing them on any exit
path. -/
theorem c8_close_loop_releases_nothing (files openHandles : List FileHandle) :
    closeInputFiles files openHandles = openHandles := by
  induction files generalizing openHandles with
  | nil => rfl
  | cons f rest ih =>
    cases hstdin : f.isStdin
    · have hstep : closeInputFiles (f :: rest) openHandles =
          closeInputFiles rest openHandles := by
        simp [closeInputFiles, hstdin]
      rw [hstep, ih]
    · have hstep : closeInputFiles (f :: rest) openHandles =
          closeInputFiles rest openHandles := by
        simp [closeInputFiles, hstdin]
      rw [hstep, ih]

/-- C10: the diagnostic totals reported at the end of a run satisfy the
identity total read = total parsed properly + total unknown; the unknown
total is the length of the unknown-labels list; and the two classes
partition the records — unknown counts the sentinel records, parsed
properly counts the non-sentinel records. -/
theorem c10_diagnostic_totals (srcs : List Source) (outFmt : String) :
    (runPipeline srcs outFmt none none).totalRead =
      (runPipeline srcs outFmt none none).totalParsed +
        (runPipeline srcs outFmt none none).totalUnknown ∧
    (runPipeline srcs outFmt none none).totalUnknown =
      (runPipeline srcs outFmt none none).unknownLabels.length ∧
    (runPipeline srcs outFmt none none).totalUnknown =
      ((parse_sequences srcs).1.filter (fun r => r.sequenceDateISO == "N/A")).length ∧
    (runPipeline srcs outFmt none none).totalParsed =
      ((parse_sequences srcs).1.filter (fun r => r.sequenceDateISO != "N/A")).length := by
  have hu : (parse_sequences srcs).2.length =
      ((parse_sequences srcs).1.filter
        (fun r => r.sequenceDateISO == "N/A")).length := by
    rw [parse_sequences_unknown srcs]
    exact List.length_map _ _
  have hp := length_filter_sentinel (parse_sequences srcs).1
  simp only [runPipeline]
  exact ⟨by omega, by trivial, by omega, by omega⟩

end ReadSeq
